import Mathlib

/-!
Verification of the AURA decision-firewall transaction pipeline.

This file gives a shallow embedding, in Lean 4, of the core of the
repository: the transaction decoder (`TransactionParser.parseTransaction`),
the intent explainer (`IntentAnalyzer.analyzeIntent`), the risk-indicator
engine (`analyzeRiskIndicators` and its four checks), and the risk-level
derivations used when logging a decision.  Definitions are translated from
the TypeScript sources; functions that can throw in TypeScript are
translated as `Option`-returning functions (`none` = an exception escaped),
and the asynchronous Etherscan calls are abstracted as an explicit oracle
record whose methods return `Except Unit` values (`Except.error` = the
fetch rejected or its JSON parse failed).

Modelling notes, applied uniformly:
* JavaScript numbers appearing in the risk checks are modelled as exact
  values (`Int`, `Option Int` with `none` playing the role of NaN, and
  `Rat` for `parseFloat` results); IEEE-754 rounding is not modelled, and
  no settled statement below depends on it.
* keccak-256 is not computed: the 4-byte selector attached to each
  registered signature is taken from the repository's own
  `FUNCTION_SIGNATURES` table, which is exactly what
  `Interface.decodeFunctionData` would recompute for these signatures.
* ABI-decoded addresses are rendered as `0x` plus the forty data
  characters lowercased; the EIP-55 checksum casing applied by ethers
  is not modelled (it needs keccak).  It affects only display strings.
-/

namespace Aura

/-! ## JavaScript string and number primitives -/

/-- Hexadecimal digit test, both cases. -/
def isHexDig (c : Char) : Bool :=
  ('0' ≤ c && c ≤ '9') ||
  ('a' ≤ c && c ≤ 'f') ||
  ('A' ≤ c && c ≤ 'F')

/-- Numeric value of a hexadecimal digit (0 for non-digits). -/
def hexVal (c : Char) : Nat :=
  if '0' ≤ c && c ≤ '9' then c.toNat - 48
  else if 'a' ≤ c && c ≤ 'f' then c.toNat - 87
  else if 'A' ≤ c && c ≤ 'F' then c.toNat - 55
  else 0

/-- Interpret a list of hexadecimal digits as a natural number. -/
def hexToNat (cs : List Char) : Nat :=
  cs.foldl (fun acc c => 16 * acc + hexVal c) 0

/-- Decimal digit test. -/
def isDecDig (c : Char) : Bool :=
  '0' ≤ c && c ≤ '9'

/-- Interpret a list of decimal digits as a natural number. -/
def decToNat (cs : List Char) : Nat :=
  cs.foldl (fun acc c => 10 * acc + (c.toNat - 48)) 0

/-- `ethers.getBigInt` on a string: the empty string is rejected, a
`0x`/`0X` prefix introduces hexadecimal, otherwise the string must be
all decimal digits.  `none` models a thrown exception.  Negative numbers,
binary/octal prefixes and surrounding whitespace do not occur in the
modelled code paths and are rejected here. -/
def getBigInt? (s : String) : Option Nat :=
  let cs := s.data
  if cs = [] then none
  else if 2 ≤ cs.length && (cs.take 2 = ['0', 'x'] || cs.take 2 = ['0', 'X']) then
    let rest := cs.drop 2
    if rest ≠ [] && rest.all isHexDig then some (hexToNat rest) else none
  else if cs.all isDecDig then some (decToNat cs) else none

/-- Is `pre` a prefix of `l`? -/
def leadsWith : List Char → List Char → Bool
  | [], _ => true
  | _ :: _, [] => false
  | a :: as, b :: bs => a = b && leadsWith as bs

/-- Does `hay` contain `needle` as a contiguous sublist? -/
def listContains (hay needle : List Char) : Bool :=
  if leadsWith needle hay then true
  else
    match hay with
    | [] => false
    | _ :: t => listContains t needle

/-- JavaScript `hay.includes(needle)`. -/
def jsIncludes (hay needle : String) : Bool :=
  listContains hay.data needle.data

/-- JavaScript `s.slice(a, b)` for non-negative indices, as characters. -/
def jsSlice (s : String) (a b : Nat) : String :=
  String.mk ((s.data.drop a).take (b - a))

/-- JavaScript `s.slice(-n)`: the last `n` characters. -/
def jsSliceLast (s : String) (n : Nat) : String :=
  String.mk (s.data.drop (s.data.length - n))

/-- JavaScript `s.length` (character count; the pipeline only meets
ASCII, so code units and characters agree). -/
def jsLength (s : String) : Nat := s.data.length

/-- Lowercase a string, JavaScript `s.toLowerCase()` on ASCII. -/
def jsToLower (s : String) : String := String.mk (s.data.map Char.toLower)

/-- Strip whitespace from both ends of a character list. -/
def listTrim (cs : List Char) : List Char :=
  ((cs.dropWhile Char.isWhitespace).reverse.dropWhile Char.isWhitespace).reverse

/-- JavaScript `s.trim()` (structural implementation, so that proofs
can evaluate it). -/
def jsTrim (s : String) : String := String.mk (listTrim s.data)

/-- Split a character list on a separator character (structural
implementation of `String.split`). -/
def charSplitOn (sep : Char) : List Char → List (List Char)
  | [] => [[]]
  | c :: rest =>
      match charSplitOn sep rest with
      | [] => if c = sep then [[], []] else [[c]]
      | g :: gs => if c = sep then [] :: g :: gs else (c :: g) :: gs

/-- Drop leading zeros of a digit list, keeping at least one digit. -/
def dropLeadZeros : List Char → List Char
  | [] => ['0']
  | ['0'] => ['0']
  | '0' :: t => dropLeadZeros t
  | l => l

/-- Decimal digit list of a natural number (via `Nat.repr`). -/
def natDigits (n : Nat) : List Char := (Nat.repr n).data

/-- Left-pad a digit list with zeros to length `w`. -/
def padLeftZeros (w : Nat) (cs : List Char) : List Char :=
  List.replicate (w - cs.length) '0' ++ cs

/-- Drop trailing zero characters. -/
def dropTrailZeros (cs : List Char) : List Char :=
  (dropLeadZeros cs.reverse).reverse

/-- `ethers.formatUnits(v, 18)`: render `v / 10^18` in decimal, with a
fractional part that keeps at least one digit. -/
def formatUnits18 (v : Nat) : String :=
  let whole := v / (10 : Nat) ^ 18
  let frac := v % (10 : Nat) ^ 18
  let fracStr := dropTrailZeros (padLeftZeros 18 (natDigits frac))
  String.mk (natDigits whole ++ '.' :: fracStr)

/-! ## Data model (src/types.ts) -/

/-- `TransactionType` enum. -/
inductive TransactionType
  | transfer | swap | approval | liquidity | unknown
deriving DecidableEq, Repr

/-- `IndicatorType` enum. -/
inductive IndicatorType
  | newToken | unverifiedContract | noDexPool | highValue
deriving DecidableEq, Repr

/-- Indicator severity, `"info" | "warning"`. -/
inductive Severity
  | info | warning
deriving DecidableEq, Repr

/-- `RiskIndicator` record. -/
structure RiskIndicator where
  type : IndicatorType
  severity : Severity
  message : String
  source : String
deriving DecidableEq, Repr

/-- Explainer confidence, `"high" | "medium" | "low"`. -/
inductive Confidence
  | high | medium | low
deriving DecidableEq, Repr

/-- `IntentAnalysis` record. -/
structure IntentAnalysis where
  intent : String
  estimatedOutcome : String
  confidence : Confidence
  details : List String
deriving DecidableEq, Repr

/-- A decoded ABI argument.  ethers yields strings for `address`,
bigints for `uint256` and arrays of strings for `address[]`; these are
the only parameter types in the signature registry. -/
inductive Param
  | addr (a : String)
  | uint (n : Nat)
  | addrList (l : List String)
deriving DecidableEq, Repr

/-- `ParsedTransaction` record (transactionParser.ts). -/
structure ParsedTransaction where
  «to» : String
  value : String
  data : String
  functionSignature : Option String := none
  functionName : Option String := none
  parameters : Option (List Param) := none
  type : TransactionType
deriving DecidableEq, Repr

/-- `TransactionRequest` record (transactionParser.ts); all fields
optional, `none` = the field is absent or `undefined`. -/
structure TransactionRequest where
  «to» : Option String := none
  value : Option String := none
  data : Option String := none
  sender : Option String := none
  gas : Option String := none
  gasPrice : Option String := none
deriving DecidableEq, Repr

/-! ## Signature registry (transactionParser.ts, module constants) -/

/-- `FUNCTION_SIGNATURES`: registered prototype → 4-byte selector. -/
def FUNCTION_SIGNATURES : List (String × String) :=
  [("transfer(address,uint256)", "a9059cbb"),
   ("transferFrom(address,address,uint256)", "23b872dd"),
   ("approve(address,uint256)", "095ea7b3"),
   ("swapExactTokensForTokens(uint256,uint256,address[],address,uint256)", "38ed1739"),
   ("swapTokensForExactTokens(uint256,uint256,address[],address,uint256)", "8803dbee"),
   ("swapExactETHForTokens(uint256,address[],address,uint256)", "7ff36ab5"),
   ("swapTokensForExactETH(uint256,uint256,address[],address,uint256)", "4a25d94a"),
   ("swapExactTokensForETH(uint256,uint256,address[],address,uint256)", "18cbafe5"),
   ("swapETHForExactTokens(uint256,address[],address,uint256)", "fb3bdb41"),
   ("addLiquidity(address,address,uint256,uint256,uint256,uint256,address,uint256)", "e8e33700"),
   ("addLiquidityETH(address,uint256,uint256,uint256,address,uint256)", "f305d719"),
   ("removeLiquidity(address,address,uint256,uint256,uint256,address,uint256)", "baa2abde"),
   ("removeLiquidityETH(address,uint256,uint256,uint256,address,uint256)", "02751cec")]

/-- `SIGNATURE_TO_FUNCTION`: the reverse lookup table. -/
def SIGNATURE_TO_FUNCTION : List (String × String) :=
  FUNCTION_SIGNATURES.map (fun p => (p.2, p.1))

/-! ## ABI parameter decoding (TransactionParser.decodeParameters) -/

/-- The closed set of ABI types in the registry. -/
inductive AbiType
  | address | uint256 | addressArray
deriving DecidableEq, Repr

/-- `createAbiFragment`: parse a prototype `name(t1,t2,...)` into its
name and comma-split parameter type strings, mirroring the regex
`^(\w+)\(([^)]*)\)$`.  `none` models the regex failing to match. -/
def createAbiFragment? (functionName : String) : Option (String × List String) :=
  let cs := functionName.data
  let nm := cs.takeWhile (fun c => c.isAlphanum || c = '_')
  match cs.drop nm.length with
  | '(' :: tail =>
    if nm ≠ [] && tail.getLast? = some ')' && tail.dropLast.all (fun c => c ≠ ')') then
      let inner := tail.dropLast
      if inner = [] then some (String.mk nm, [])
      else some (String.mk nm, (charSplitOn ',' inner).map (fun g => String.mk (listTrim g)))
    else none
  | _ => none

/-- Interpret a parameter type string; `none` models the
`ethers.Interface` constructor throwing on an unsupported type. -/
def toAbiType? (s : String) : Option AbiType :=
  if s = "address" then some .address
  else if s = "uint256" then some .uint256
  else if s = "address[]" then some .addressArray
  else none

/-- `getBytes` on the call data: require a `0x` prefix, an even number
of hexadecimal characters, and return those characters. -/
def hexBody? (data : String) : Option (List Char) :=
  let cs := data.data
  if cs.take 2 = ['0', 'x'] then
    let body := cs.drop 2
    if body.all isHexDig && body.length % 2 = 0 then some body else none
  else none

/-- Read the 64-character word at byte offset `off` of the payload. -/
def readWordChars? (payload : List Char) (off : Nat) : Option (List Char) :=
  if 2 * off + 64 ≤ payload.length then some ((payload.drop (2 * off)).take 64)
  else none

/-- Read the word at byte offset `off` as a natural number. -/
def readWordNat? (payload : List Char) (off : Nat) : Option Nat :=
  (readWordChars? payload off).map hexToNat

/-- Decode an `address` word: the first twelve bytes must be zero
(`toBeHex(value, 20)` in ethers throws otherwise); the address is
rendered lowercased (checksum casing not modelled). -/
def decodeAddressWord? (w : List Char) : Option Param :=
  if (w.take 24).all (fun c => c = '0') then
    some (.addr (String.mk ('0' :: 'x' :: (w.drop 24).map Char.toLower)))
  else none

/-- Decode the dynamic `address[]` whose offset word points at byte
offset `off` of the payload: a length word followed by that many
address words, every read bounds-checked. -/
def decodeAddressArray? (payload : List Char) (off : Nat) : Option Param := do
  let len ← readWordNat? payload off
  if 2 * (off + 32 * (len + 1)) ≤ payload.length then
    let elems ← (List.range len).mapM (fun j => do
      let w ← readWordChars? payload (off + 32 * (j + 1))
      match decodeAddressWord? w with
      | some (.addr a) => some a
      | _ => none)
    some (.addrList elems)
  else none

/-- Decode the head words of the payload against the declared types,
consuming one 32-byte head slot per parameter starting at slot `i`. -/
def decodeHead? (payload : List Char) : Nat → List AbiType → Option (List Param)
  | _, [] => some []
  | i, t :: ts => do
    let p ← match t with
      | .address => do
          let w ← readWordChars? payload (32 * i)
          decodeAddressWord? w
      | .uint256 => do
          let w ← readWordChars? payload (32 * i)
          some (.uint (hexToNat w))
      | .addressArray => do
          let off ← readWordNat? payload (32 * i)
          decodeAddressArray? payload off
    let ps ← decodeHead? payload (i + 1) ts
    some (p :: ps)

/-- The declared ABI types of a registered prototype. -/
def sigTypes? (functionName : String) : Option (List AbiType) := do
  let (_, tys) ← createAbiFragment? functionName
  tys.mapM toAbiType?

/-- `iface.decodeFunctionData` inside `decodeParameters`: validate the
hex data, check the 4-byte selector against the registered selector of
`functionName` (ethers recomputes it by keccak; the registry table
records the same value), and decode the payload.  `none` models any
exception inside the inner `try`. -/
def decodeParametersCore? (functionName data : String) : Option (List Param) := do
  let tys ← sigTypes? functionName
  let body ← hexBody? data
  let sel ← FUNCTION_SIGNATURES.lookup functionName
  if (body.take 8).map Char.toLower = sel.data then
    decodeHead? (body.drop 8) 0 tys
  else none

/-- `TransactionParser.decodeParameters`: every exception is caught and
becomes the empty parameter list. -/
def decodeParameters (functionName data : String) : List Param :=
  (decodeParametersCore? functionName data).getD []

/-! ## TransactionParser (transactionParser.ts) -/

/-- JavaScript `o || d` on an optional string: `undefined` and the empty
string are falsy and fall back to the default. -/
def jsOr (o : Option String) (d : String) : String :=
  match o with
  | some s => if s = "" then d else s
  | none => d

/-- Truthiness of an optional string field. -/
def optTruthy (o : Option String) : Bool :=
  o.getD "" ≠ ""

/-- `TransactionParser.determineTransactionType`. -/
def determineTransactionType (functionName : String) : TransactionType :=
  if jsIncludes functionName "transfer" then .transfer
  else if jsIncludes functionName "swap" then .swap
  else if jsIncludes functionName "approve" then .approval
  else if jsIncludes functionName "addLiquidity" || jsIncludes functionName "removeLiquidity" then
    .liquidity
  else .unknown

/-- The statements of `TransactionParser.parseTransaction` after the
`valueInWei` normalisation; none of them can throw (parameter decoding
catches internally). -/
def parseTransactionRest (txRequest : TransactionRequest) (valueInWei : String) :
    ParsedTransaction :=
  let data := jsOr txRequest.data "0x"
  let base : ParsedTransaction :=
    { «to» := jsOr txRequest.«to» "", value := valueInWei, data := data, type := .unknown }
  if data = "0x" || jsLength data ≤ 2 then
    { base with type := .transfer }
  else if jsLength data ≥ 10 then
    let functionSignature := jsSlice data 2 10
    match SIGNATURE_TO_FUNCTION.lookup functionSignature with
    | some functionName =>
        { base with
            functionSignature := some functionSignature,
            functionName := some functionName,
            type := determineTransactionType functionName,
            parameters := some (decodeParameters functionName data) }
    | none => { base with functionSignature := some functionSignature }
  else
    base

/-- `TransactionParser.parseTransaction`.  The only statement that can
throw is the `ethers.getBigInt(value)` normalisation, hence the
`Option` result. -/
def parseTransaction? (txRequest : TransactionRequest) : Option ParsedTransaction :=
  let value := jsOr txRequest.value "0x0"
  (if value = "0x0" then some "0" else (getBigInt? value).map Nat.repr).map
    (parseTransactionRest txRequest)

/-- `TransactionParser.formatValue` at its only used precision (18). -/
def formatValue (valueWei : String) : String :=
  if valueWei = "0" then "0"
  else
    match getBigInt? valueWei with
    | some v => formatUnits18 v
    | none => valueWei

/-- Is this parameter the token-path array the swap extractor looks for:
a non-empty array whose first element is a 42-character `0x` string? -/
def isTokenPathParam : Param → Bool
  | .addrList (a :: _) => leadsWith ['0', 'x'] a.data && jsLength a = 42
  | _ => false

/-- `TransactionParser.extractTokenAddresses`. -/
def extractTokenAddresses (parameters : List Param) (functionName : String) : List String :=
  if parameters = [] then []
  else if jsIncludes functionName "swap" then
    match parameters.find? isTokenPathParam with
    | some (.addrList l) => l
    | _ => []
  else []

/-- JavaScript truthiness of a decoded parameter (`0n`, the empty
string are falsy; arrays are always truthy). -/
def paramTruthy : Param → Bool
  | .uint n => n ≠ 0
  | .addr s => s ≠ ""
  | .addrList _ => true

/-- `typeof param === "object"` for a decoded parameter: only the
decoded arrays are objects (bigints and strings are not). -/
def paramIsObject : Param → Bool
  | .addrList _ => true
  | _ => false

/-- `ethers.getBigInt` on a decoded parameter: bigints pass through,
decoded address strings parse as hexadecimal, arrays throw. -/
def paramBigInt? : Param → Option Nat
  | .uint n => some n
  | .addr s => getBigInt? s
  | .addrList _ => none

/-- Template-literal rendering of a decoded parameter (arrays render
comma-joined, as in JavaScript). -/
def paramDisplay : Param → String
  | .addr s => s
  | .uint n => Nat.repr n
  | .addrList l => String.intercalate "," l

/-- The `amounts` record built by `extractAmounts`. -/
structure Amounts where
  amountIn : Option String := none
  amountOut : Option String := none
  amountMin : Option String := none
deriving DecidableEq, Repr

/-- One slot of `extractAmounts`: outer `none` = `getBigInt` threw,
`some none` = the slot was skipped (missing, falsy or an object),
`some (some s)` = the decimal rendering was assigned. -/
def readAmountAt (parameters : List Param) (i : Nat) : Option (Option String) :=
  match parameters.get? i with
  | some p =>
      if paramTruthy p && !paramIsObject p then
        match paramBigInt? p with
        | some n => some (some (Nat.repr n))
        | none => none
      else some none
  | none => some none

/-- `TransactionParser.extractAmounts`: the `try` wraps the whole
`if`-chain, so a throw keeps the assignments already made. -/
def extractAmounts (parameters : List Param) (functionName : String) : Amounts :=
  if parameters = [] then {}
  else if jsIncludes functionName "swapExact" then
    match readAmountAt parameters 0 with
    | none => {}
    | some a0 =>
        match readAmountAt parameters 1 with
        | none => { amountIn := a0 }
        | some a1 => { amountIn := a0, amountMin := a1 }
  else if jsIncludes functionName "swapTokensForExact" then
    match readAmountAt parameters 0 with
    | none => {}
    | some a0 =>
        match readAmountAt parameters 1 with
        | none => { amountOut := a0 }
        | some a1 => { amountOut := a0, amountIn := a1 }
  else if jsIncludes functionName "transfer" then
    match readAmountAt parameters 1 with
    | none => {}
    | some a1 => { amountIn := a1 }
  else if jsIncludes functionName "approve" then
    match readAmountAt parameters 1 with
    | none => {}
    | some a1 => { amountIn := a1 }
  else {}

/-! ## IntentAnalyzer (intentAnalyzer.ts) -/

/-- `IntentAnalyzer.formatAddress`. -/
def formatAddress (address : String) : String :=
  if address = "" || jsLength address < 10 then address
  else jsSlice address 0 6 ++ "..." ++ jsSliceLast address 4

/-- `formatAddress` applied to a decoded parameter; a non-string,
non-falsy parameter makes the JavaScript original throw when slicing
(`none` here); such parameters never reach it from the decoder. -/
def formatAddressParam? : Param → Option String
  | .addr s => some (formatAddress s)
  | _ => none

/-- Round `num / den` to `d` fractional digits (ties away from zero,
as `Number.toFixed`) and render with exactly `d` digits. -/
def toFixedStr (num den d : Nat) : String :=
  let scaled := (2 * num * 10 ^ d + den) / (2 * den)
  String.mk (natDigits (scaled / 10 ^ d) ++ '.' :: padLeftZeros d (natDigits (scaled % 10 ^ d)))

/-- `IntentAnalyzer.formatTokenAmount`.  `parseFloat` of the
18-decimal rendering is modelled as the exact rational `v / 10^18`;
the threshold comparisons and `toFixed` renderings are computed on
that exact value. -/
def formatTokenAmount (amount : String) : String :=
  match getBigInt? amount with
  | none => amount
  | some v =>
      if v > 10 ^ 24 then String.mk ((natDigits v).take 6) ++ "..."
      else if v = 0 then "0"
      else if v * 10 ^ 6 < 10 ^ 18 then "< 0.000001"
      else if v < 10 ^ 18 then toFixedStr v (10 ^ 18) 6
      else if v < 1000 * 10 ^ 18 then toFixedStr v (10 ^ 18) 4
      else if v < 1000000 * 10 ^ 18 then toFixedStr v (10 ^ 21) 2 ++ "K"
      else toFixedStr v (10 ^ 24) 2 ++ "M"

/-- The known-DEX router table of `IntentAnalyzer.identifyDEX`. -/
def knownDEXs : List (String × String) :=
  [("0x7a250d5630b4cf539739df2c5dacb4c659f2488d", "Uniswap V2"),
   ("0xe592427a0aece92de3edee1f18e0157c05861564", "Uniswap V3"),
   ("0xd9e1ce17f2641f24ae83637ab66a2cca9c378b9f", "SushiSwap"),
   ("0x10ed43c718714eb63d5aa57b78b54704e256024e", "PancakeSwap")]

/-- `IntentAnalyzer.identifyDEX`. -/
def identifyDEX (address : String) : String :=
  (knownDEXs.lookup (jsToLower address)).getD "Unknown DEX"

/-- The known-contract table of `IntentAnalyzer.identifyContract`. -/
def knownContracts : List (String × String) :=
  [("0x7a250d5630b4cf539739df2c5dacb4c659f2488d", "Uniswap V2 Router"),
   ("0xe592427a0aece92de3edee1f18e0157c05861564", "Uniswap V3 Router"),
   ("0xd9e1ce17f2641f24ae83637ab66a2cca9c378b9f", "SushiSwap Router"),
   ("0xa0b86a33e6441b8c18d904c4c0b5c0c8c7c5b0c8", "USDC"),
   ("0xdac17f958d2ee523a2206206994597c13d831ec7", "USDT"),
   ("0x6b175474e89094c44da98b954eedeac495271d0f", "DAI"),
   ("0x2260fac5e5542a773aa44fbcfedf7c193bc2c599", "WBTC"),
   ("0x0000000000000000000000000000000000000000", "Null Address")]

/-- `IntentAnalyzer.identifyContract`. -/
def identifyContract (address : String) : String :=
  match knownContracts.lookup (jsToLower address) with
  | some known => known
  | none => formatAddress address

/-- `identifyContract` applied to a decoded parameter; a non-string
parameter has no `toLowerCase` and the original throws (`none`). -/
def identifyContractParam? : Param → Option String
  | .addr s => some (identifyContract s)
  | _ => none

/-- `IntentAnalyzer.analyzeUnknown`: always low confidence; pure.
The source initialises `intent`/`outcome`/`details` and overwrites
them in an `if`-chain; that mutation is translated field-wise into
conditionals over the same chain of conditions. -/
def analyzeUnknown (parsedTx : ParsedTransaction) : IntentAnalysis :=
  let contractName := identifyContract parsedTx.«to»
  let hasValue := parsedTx.value ≠ "0"
  let hasData := parsedTx.data ≠ "" && parsedTx.data ≠ "0x" && jsLength parsedTx.data > 2
  let ethAmount := formatValue parsedTx.value
  let sigDetails :=
    if optTruthy parsedTx.functionSignature then
      ["Function signature: 0x" ++ parsedTx.functionSignature.getD ""]
    else []
  { intent :=
      if hasValue && !hasData then "Send " ++ ethAmount ++ " ETH to " ++ contractName
      else if hasData && hasValue then "Send " ++ ethAmount ++ " ETH to " ++ contractName
      else "Unknown transaction type",
    estimatedOutcome :=
      if hasValue && !hasData then ethAmount ++ " ETH will be sent to the contract"
      else if hasData && hasValue then ethAmount ++ " ETH will be sent to the contract"
      else if hasData then "This will execute a function on the contract"
      else "The outcome of this transaction is unclear",
    confidence := .low,
    details :=
      (if hasValue && !hasData then ["Amount: " ++ ethAmount ++ " ETH"]
       else if hasData && hasValue then ["ETH sent: " ++ ethAmount] ++ sigDetails
       else if hasData then sigDetails
       else []) ++
      ["Contract: " ++ contractName ++ " (" ++ parsedTx.«to» ++ ")",
       "CAUTION: Unknown transaction - verify carefully before proceeding"] }

/-- `IntentAnalyzer.analyzeTransfer`.  The two `ethers.getBigInt`
calls on decoded parameters are the only throw points (`none`). -/
def analyzeTransfer? (parsedTx : ParsedTransaction) : Option IntentAnalysis :=
  if !optTruthy parsedTx.functionName then
    let ethAmount := formatValue parsedTx.value
    let recipient := formatAddress parsedTx.«to»
    some { intent := "Send " ++ ethAmount ++ " ETH to " ++ recipient,
           estimatedOutcome := ethAmount ++ " ETH will be transferred from your wallet",
           confidence := .high,
           details := ["Recipient: " ++ parsedTx.«to»,
                       "Amount: " ++ ethAmount ++ " ETH",
                       "This is a simple ETH transfer"] }
  else
    let fn := parsedTx.functionName.getD ""
    let ps := parsedTx.parameters.getD []
    if fn = "transfer(address,uint256)" && parsedTx.parameters.isSome && ps.length ≥ 2 then do
      let p0 ← ps.get? 0
      let p1 ← ps.get? 1
      let recipient ← formatAddressParam? p0
      let amount ← paramBigInt? p1
      let contractAddress := formatAddress parsedTx.«to»
      some { intent := "Send tokens to " ++ recipient,
             estimatedOutcome := "Tokens will be transferred from your wallet",
             confidence := .high,
             details := ["Token contract: " ++ contractAddress,
                         "Recipient: " ++ paramDisplay p0,
                         "Amount: " ++ Nat.repr amount ++ " tokens",
                         "This transfers tokens you own to another address"] }
    else if fn = "transferFrom(address,address,uint256)" && parsedTx.parameters.isSome
        && ps.length ≥ 3 then do
      let p0 ← ps.get? 0
      let p1 ← ps.get? 1
      let p2 ← ps.get? 2
      let fromAddr ← formatAddressParam? p0
      let recipient ← formatAddressParam? p1
      let amount ← paramBigInt? p2
      some { intent := "Transfer tokens from " ++ fromAddr ++ " to " ++ recipient,
             estimatedOutcome := "Tokens will be moved between addresses (requires approval)",
             confidence := .medium,
             details := ["From: " ++ paramDisplay p0,
                         "To: " ++ paramDisplay p1,
                         "Amount: " ++ Nat.repr amount ++ " tokens",
                         "This moves tokens between addresses (typically used by contracts)"] }
    else
      some (analyzeUnknown parsedTx)

/-- `IntentAnalyzer.analyzeSwap`: exception-free (the amount extractor
and the formatters catch internally). -/
def analyzeSwap (parsedTx : ParsedTransaction) : IntentAnalysis :=
  if !optTruthy parsedTx.functionName || parsedTx.parameters.isNone then
    analyzeUnknown parsedTx
  else
    let fn := parsedTx.functionName.getD ""
    let ps := parsedTx.parameters.getD []
    let amounts := extractAmounts ps fn
    let tokenPath := extractTokenAddresses ps fn
    let dexName := identifyDEX parsedTx.«to»
    if jsIncludes fn "swapExactTokensForTokens" then
      let amountIn := (amounts.amountIn.map formatTokenAmount).getD "unknown"
      let minAmountOut := (amounts.amountMin.map formatTokenAmount).getD "unknown"
      { intent := "Swap " ++ amountIn ++ " tokens for other tokens on " ++ dexName,
        estimatedOutcome := "You will receive at least " ++ minAmountOut ++ " tokens",
        confidence := .high,
        details := ["DEX: " ++ dexName,
                    "Input amount: " ++ amountIn ++ " tokens",
                    "Minimum output: " ++ minAmountOut ++ " tokens",
                    "Token path: " ++ Nat.repr tokenPath.length ++ " tokens",
                    "You are trading one token for another"] }
    else if jsIncludes fn "swapExactETHForTokens" then
      let ethAmount := (amounts.amountIn.map formatValue).getD "unknown"
      let minTokens := (amounts.amountMin.map formatTokenAmount).getD "unknown"
      { intent := "Swap " ++ ethAmount ++ " ETH for tokens on " ++ dexName,
        estimatedOutcome := "You will receive at least " ++ minTokens ++ " tokens",
        confidence := .high,
        details := ["DEX: " ++ dexName,
                    "ETH amount: " ++ ethAmount,
                    "Minimum tokens: " ++ minTokens,
                    "You are buying tokens with ETH"] }
    else if jsIncludes fn "swapExactTokensForETH" then
      let tokenAmount := (amounts.amountIn.map formatTokenAmount).getD "unknown"
      let minEth := (amounts.amountMin.map formatValue).getD "unknown"
      { intent := "Swap " ++ tokenAmount ++ " tokens for ETH on " ++ dexName,
        estimatedOutcome := "You will receive at least " ++ minEth ++ " ETH",
        confidence := .high,
        details := ["DEX: " ++ dexName,
                    "Token amount: " ++ tokenAmount,
                    "Minimum ETH: " ++ minEth,
                    "You are selling tokens for ETH"] }
    else
      { intent := "Perform token swap on " ++ dexName,
        estimatedOutcome := "Tokens will be exchanged according to current market rates",
        confidence := .medium,
        details := ["DEX: " ++ dexName,
                    "Function: " ++ fn,
                    "This is a token swap transaction"] }

/-- The unlimited-approval threshold `0xffff…ff` (64 f digits). -/
def MAX_UINT256 : Nat := 2 ^ 256 - 1

/-- `IntentAnalyzer.analyzeApproval`.  The `ethers.getBigInt` on the
second parameter and the spender lookup can throw (`none`). -/
def analyzeApproval? (parsedTx : ParsedTransaction) : Option IntentAnalysis :=
  if parsedTx.parameters.isNone || (parsedTx.parameters.getD []).length < 2 then
    some (analyzeUnknown parsedTx)
  else do
    let ps := parsedTx.parameters.getD []
    let p0 ← ps.get? 0
    let p1 ← ps.get? 1
    let amount ← paramBigInt? p1
    let tokenContract := formatAddress parsedTx.«to»
    let spenderName ← identifyContractParam? p0
    let isUnlimited := amount ≥ MAX_UINT256
    let amountText := if isUnlimited then "unlimited" else formatTokenAmount (Nat.repr amount)
    some { intent := "Allow " ++ spenderName ++ " to spend " ++ amountText ++ " of your tokens",
           estimatedOutcome := spenderName ++ " will be able to transfer your tokens on your behalf",
           confidence := .high,
           details := ["Token contract: " ++ tokenContract,
                       "Spender: " ++ spenderName ++ " (" ++ paramDisplay p0 ++ ")",
                       "Amount: " ++ amountText ++ " tokens",
                       (if isUnlimited then "WARNING: This grants unlimited spending permission"
                        else "This grants limited spending permission"),
                       "You can revoke this permission later by setting approval to 0"] }

/-- `IntentAnalyzer.analyzeLiquidity`: exception-free. -/
def analyzeLiquidity (parsedTx : ParsedTransaction) : IntentAnalysis :=
  let dexName := identifyDEX parsedTx.«to»
  if !optTruthy parsedTx.functionName || parsedTx.parameters.isNone then
    analyzeUnknown parsedTx
  else
    let fn := parsedTx.functionName.getD ""
    if jsIncludes fn "addLiquidity" then
      if jsIncludes fn "ETH" then
        { intent := "Add liquidity to ETH/Token pool on " ++ dexName,
          estimatedOutcome := "You will provide ETH and tokens to earn trading fees",
          confidence := .high,
          details := ["DEX: " ++ dexName,
                      "You are becoming a liquidity provider",
                      "You will receive LP tokens representing your share",
                      "You will earn fees from trades in this pool"] }
      else
        { intent := "Add liquidity to token pair on " ++ dexName,
          estimatedOutcome := "You will provide two tokens to earn trading fees",
          confidence := .high,
          details := ["DEX: " ++ dexName,
                      "You are becoming a liquidity provider",
                      "You will receive LP tokens representing your share",
                      "You will earn fees from trades in this pool"] }
    else if jsIncludes fn "removeLiquidity" then
      { intent := "Remove liquidity from " ++ dexName ++ " pool",
        estimatedOutcome := "You will receive back your tokens plus earned fees",
        confidence := .high,
        details := ["DEX: " ++ dexName,
                    "You are withdrawing your liquidity",
                    "Your LP tokens will be burned",
                    "You will receive the underlying tokens"] }
    else
      analyzeUnknown parsedTx

/-- `IntentAnalyzer.analyzeIntent`: dispatch on the transaction kind. -/
def analyzeIntent? (parsedTx : ParsedTransaction) : Option IntentAnalysis :=
  match parsedTx.type with
  | .transfer => analyzeTransfer? parsedTx
  | .swap => some (analyzeSwap parsedTx)
  | .approval => analyzeApproval? parsedTx
  | .liquidity => some (analyzeLiquidity parsedTx)
  | .unknown => some (analyzeUnknown parsedTx)

/-! ## Risk indicator engine (riskIndicators.ts)

The Etherscan endpoints are abstracted as an oracle record; each field
is one endpoint, returning `Except.error ()` when the `fetch` rejects
or its JSON parse fails.  Response records keep exactly the fields the
code reads; fields the code truthiness-tests before use are `Option`s
so that an absent field is representable. -/

/-- One entry of the `getsourcecode` result (only `SourceCode` is
read by the code; the other response fields are omitted). -/
structure ContractSourceEntry where
  sourceCode : String
deriving DecidableEq, Repr

/-- The `getsourcecode` response shape. -/
structure ContractResponse where
  status : String
  result : Option (List ContractSourceEntry)
deriving DecidableEq, Repr

/-- The `eth_blockNumber` response shape. -/
structure BlockResponse where
  status : String
  result : String
deriving DecidableEq, Repr

/-- One entry of a `txlist` result (the fields the code reads). -/
structure TxSummary where
  «to» : Option String := none
  «from» : Option String := none
  blockNumber : String := ""
deriving DecidableEq, Repr

/-- The `txlist` response shape. -/
structure TxListResponse where
  status : String
  result : Option (List TxSummary)
deriving DecidableEq, Repr

/-- The `eth_getCode` response shape. -/
structure CodeResponse where
  result : Option String
deriving DecidableEq, Repr

/-- The external data source: one field per Etherscan query the engine
issues (`txlist` is queried with two different parameter sets, asc/1
for token age and desc/100 for DEX presence, hence two fields). -/
structure EtherscanOracle where
  getSourceCode : String → Except Unit ContractResponse
  getBlockNumber : Except Unit BlockResponse
  getTxListAsc : String → Except Unit TxListResponse
  getTxListDesc : String → Except Unit TxListResponse
  getCode : String → Except Unit CodeResponse

/-- `KNOWN_PROTOCOL_WHITELIST` (riskIndicators.ts). -/
def KNOWN_PROTOCOL_WHITELIST : List (String × String) :=
  [("0x7a250d5630b4cf539739df2c5dacb4c659f2488d", "Uniswap V2 Router"),
   ("0x5c69bee701ef814a2b6a3edd4b1652cb9cc5aa6f", "Uniswap V2 Factory"),
   ("0xe592427a0aece92de3edee1f18e0157c05861564", "Uniswap V3 Router"),
   ("0x1f98431c8ad98523631ae4a59f267346ea31f984", "Uniswap V3 Factory"),
   ("0xc36442b4a4522e871399cd717abdd847ab11fe88", "Uniswap V3 Positions NFT"),
   ("0x00000000006c3852cbef3e08e8df289169ede581", "OpenSea Seaport"),
   ("0xa0b86991c6218b36c1d19d4a2e9eb0ce3606eb48", "USDC Token"),
   ("0xdac17f958d2ee523a2206206994597c13d831ec7", "USDT Token"),
   ("0x6b175474e89094c44da98b954eedeac495271d0f", "DAI Token"),
   ("0xc02aaa39b223fe8d0a0e5c4f27ead9083c756cc2", "Wrapped ETH (WETH)")]

/-- `getKnownProtocol`. -/
def getKnownProtocol (address : String) : Option String :=
  KNOWN_PROTOCOL_WHITELIST.lookup (jsToLower address)

/-- The info indicator the whitelist fallback produces. -/
def knownProtocolIndicator (knownProtocol : String) : RiskIndicator :=
  ⟨.unverifiedContract, .info,
   "Verified Contract (Known Protocol: " ++ knownProtocol ++ ")",
   "Fallback Verification"⟩

/-- `checkContractVerification`. -/
def checkContractVerification (o : EtherscanOracle) (contractAddress : String) :
    Option RiskIndicator :=
  match o.getSourceCode contractAddress with
  | .ok data =>
      if data.status = "1" && data.result.isSome && (data.result.getD []).length > 0 then
        let contract := (data.result.getD []).headD ⟨""⟩
        if contract.sourceCode ≠ "" && jsTrim contract.sourceCode ≠ "" then
          some ⟨.unverifiedContract, .info, "Contract is verified on Etherscan", "Etherscan API"⟩
        else
          match getKnownProtocol contractAddress with
          | some knownProtocol => some (knownProtocolIndicator knownProtocol)
          | none =>
              some ⟨.unverifiedContract, .warning,
                    "Contract is not verified on Etherscan", "Etherscan API"⟩
      else
        match getKnownProtocol contractAddress with
        | some knownProtocol => some (knownProtocolIndicator knownProtocol)
        | none =>
            some ⟨.unverifiedContract, .warning,
                  "Unable to verify contract status", "Etherscan API"⟩
  | .error _ =>
      match getKnownProtocol contractAddress with
      | some knownProtocol => some (knownProtocolIndicator knownProtocol)
      | none =>
          some ⟨.unverifiedContract, .warning,
                "Unable to verify contract status", "Etherscan API (Error)"⟩

/-- JavaScript `parseInt(s, 16)`: optional `0x` prefix, then the
maximal run of hexadecimal digits; `none` is NaN.  (Signs do not occur
on the modelled inputs.) -/
def jsParseIntHex (s : String) : Option Int :=
  let cs := (jsTrim s).data
  let cs := if cs.take 2 = ['0', 'x'] || cs.take 2 = ['0', 'X'] then cs.drop 2 else cs
  let digs := cs.takeWhile isHexDig
  if digs = [] then none else some (hexToNat digs : Int)

/-- JavaScript `parseInt(s)` with no radix: hexadecimal after a `0x`
prefix, otherwise the maximal run of decimal digits; `none` is NaN. -/
def jsParseIntDec (s : String) : Option Int :=
  let cs := (jsTrim s).data
  if cs.take 2 = ['0', 'x'] || cs.take 2 = ['0', 'X'] then
    let digs := (cs.drop 2).takeWhile isHexDig
    if digs = [] then none else some (hexToNat digs : Int)
  else
    let digs := cs.takeWhile isDecDig
    if digs = [] then none else some (decToNat digs : Int)

/-- The indicator produced by both failure paths of `checkTokenAge`
(the explicit fallthrough and the catch differ only in `source`). -/
def unableTokenAge (src : String) : RiskIndicator :=
  ⟨.newToken, .warning, "Unable to determine token age", src⟩

/-- `checkTokenAge`.  A thrown error anywhere in the body (including
the explicit `throw` on a bad block-number status) lands in the catch
clause. -/
def checkTokenAge (o : EtherscanOracle) (tokenAddress : String) : Option RiskIndicator :=
  match o.getBlockNumber with
  | .error _ => some (unableTokenAge "Etherscan API (Error)")
  | .ok currentBlockData =>
      if currentBlockData.status ≠ "1" then some (unableTokenAge "Etherscan API (Error)")
      else
        let currentBlock := jsParseIntHex currentBlockData.result
        match o.getTxListAsc tokenAddress with
        | .error _ => some (unableTokenAge "Etherscan API (Error)")
        | .ok txData =>
            if txData.status = "1" && txData.result.isSome &&
                (txData.result.getD []).length > 0 then
              let creationBlock := jsParseIntDec (((txData.result.getD []).headD {}).blockNumber)
              let estimatedDays : Option Int := do
                let cur ← currentBlock
                let cre ← creationBlock
                some (Int.fdiv ((cur - cre) * 12) (24 * 60 * 60))
              match estimatedDays with
              | some d =>
                  if d < 7 then
                    some ⟨.newToken, .warning,
                          "Token is very new (" ++ toString d ++ " days old)", "Etherscan API"⟩
                  else if d < 30 then
                    some ⟨.newToken, .info,
                          "Token is relatively new (" ++ toString d ++ " days old)",
                          "Etherscan API"⟩
                  else
                    some ⟨.newToken, .info,
                          "Token age: " ++ toString d ++ " days", "Etherscan API"⟩
              | none => some ⟨.newToken, .info, "Token age: NaN days", "Etherscan API"⟩
            else
              some (unableTokenAge "Etherscan API")

/-- Router constants of `checkDEXPoolPresence`. -/
def uniswapV2Router : String := "0x7a250d5630B4cF539739dF2C5dAcb4c659F2488D"

/-- Second router constant of `checkDEXPoolPresence`. -/
def uniswapV3Router : String := "0xE592427A0AEce92De3Edee1F18E0157C05861564"

/-- One transaction summary touches a Uniswap router (the `some`
predicate inside `checkDEXPoolPresence`; optional chaining makes an
absent counterparty compare unequal). -/
def touchesUniswap (tx : TxSummary) : Bool :=
  tx.«to».map jsToLower = some (jsToLower uniswapV2Router) ||
  tx.«to».map jsToLower = some (jsToLower uniswapV3Router) ||
  tx.«from».map jsToLower = some (jsToLower uniswapV2Router) ||
  tx.«from».map jsToLower = some (jsToLower uniswapV3Router)

/-- `checkDEXPoolPresence`. -/
def checkDEXPoolPresence (o : EtherscanOracle) (tokenAddress : String) : Option RiskIndicator :=
  match o.getTxListDesc tokenAddress with
  | .error _ =>
      some ⟨.noDexPool, .warning, "Unable to verify DEX pool presence", "Etherscan API (Error)"⟩
  | .ok data =>
      if data.status = "1" && data.result.isSome && (data.result.getD []).length > 0 then
        if (data.result.getD []).any touchesUniswap then
          some ⟨.noDexPool, .info, "Token has Uniswap trading activity", "Etherscan API"⟩
        else
          some ⟨.noDexPool, .warning, "No major DEX trading activity found", "Etherscan API"⟩
      else
        some ⟨.noDexPool, .warning, "Unable to verify DEX pool presence", "Etherscan API"⟩

/-- JavaScript `parseFloat` restricted to the unsigned decimal
literals the pipeline produces (`none` is NaN; exponents and signs
do not occur on the modelled paths). -/
def jsParseFloat? (s : String) : Option Rat :=
  let cs := (jsTrim s).data
  let intPart := cs.takeWhile isDecDig
  match cs.drop intPart.length with
  | '.' :: tail =>
      let fracPart := tail.takeWhile isDecDig
      if intPart = [] && fracPart = [] then none
      else some ((decToNat intPart : Rat) +
                 (decToNat fracPart : Rat) / ((10 : Rat) ^ fracPart.length))
  | _ => if intPart = [] then none else some (decToNat intPart : Rat)

/-- `value.toFixed(2)` for the non-negative rationals met here. -/
def ratFixed2 (q : Rat) : String :=
  toFixedStr q.num.toNat q.den 2

/-- `checkTransactionValue`: pure; NaN compares false against both
thresholds and falls through to `null`. -/
def checkTransactionValue (valueInEth : String) : Option RiskIndicator :=
  match jsParseFloat? valueInEth with
  | none => none
  | some value =>
      if value > 10 then
        some ⟨.highValue, .warning,
              "High value transaction: " ++ ratFixed2 value ++ " ETH", "Transaction Analysis"⟩
      else if value > 1 then
        some ⟨.highValue, .info,
              "Medium value transaction: " ++ ratFixed2 value ++ " ETH", "Transaction Analysis"⟩
      else none

/-- `isContract`: does the recipient have deployed code?  A fetch
failure is caught and reported as `false`. -/
def isContract (o : EtherscanOracle) (address : String) : Bool :=
  match o.getCode address with
  | .error _ => false
  | .ok data =>
      match data.result with
      | some r => r ≠ "" && r ≠ "0x" && jsLength r > 2
      | none => false

/-- The warning pushed when call data goes to a codeless address. -/
def nonContractWarning : RiskIndicator :=
  ⟨.unverifiedContract, .warning,
   "Transaction data sent to non-contract address", "Transaction Analysis"⟩

/-- The positive indicator synthesised for plain transfers. -/
def simpleTransferInfo : RiskIndicator :=
  ⟨.unverifiedContract, .info,
   "Simple ETH transfer to wallet address", "Transaction Analysis"⟩

/-- The single indicator of the defensive top-level catch. -/
def riskErrorIndicator : RiskIndicator :=
  ⟨.unverifiedContract, .warning,
   "Unable to analyze risk indicators", "Risk Analysis (Error)"⟩

/-- `hasTransactionData` inside `analyzeRiskIndicators`. -/
def hasTxData (transactionData : Option String) : Bool :=
  match transactionData with
  | some d => d ≠ "" && d ≠ "0x" && jsLength d > 2
  | none => false

/-- The body of `analyzeRiskIndicators` (the `try` block): runs the
checks in their fixed order and concatenates whichever indicators they
produce. -/
def analyzeRiskIndicatorsBody (o : EtherscanOracle) (recipientAddress : String)
    (tokenAddress valueInEth transactionData : Option String) : List RiskIndicator :=
  let hasTransactionData := hasTxData transactionData
  let contractInds :=
    if hasTransactionData then
      if isContract o recipientAddress then
        (checkContractVerification o recipientAddress).toList
      else [nonContractWarning]
    else []
  let tokenInds :=
    if optTruthy tokenAddress && tokenAddress.getD "" ≠ recipientAddress then
      (checkTokenAge o (tokenAddress.getD "")).toList ++
      (checkDEXPoolPresence o (tokenAddress.getD "")).toList
    else []
  let valueInds :=
    if optTruthy valueInEth then (checkTransactionValue (valueInEth.getD "")).toList else []
  let indicators := contractInds ++ tokenInds ++ valueInds
  if indicators = [] && !hasTransactionData then [simpleTransferInfo] else indicators

/-- The `try` block as a fallible computation: every awaited call
catches its own failures inside itself, so the body never throws. -/
def analyzeRiskIndicatorsTry (o : EtherscanOracle) (recipientAddress : String)
    (tokenAddress valueInEth transactionData : Option String) :
    Except Unit (List RiskIndicator) :=
  .ok (analyzeRiskIndicatorsBody o recipientAddress tokenAddress valueInEth transactionData)

/-- The defensive top-level catch of `analyzeRiskIndicators`. -/
def riskPipelineCatch (r : Except Unit (List RiskIndicator)) : List RiskIndicator :=
  match r with
  | .ok l => l
  | .error _ => [riskErrorIndicator]

/-- `analyzeRiskIndicators`: the try block under the top-level catch. -/
def analyzeRiskIndicators (o : EtherscanOracle) (recipientAddress : String)
    (tokenAddress valueInEth transactionData : Option String) : List RiskIndicator :=
  riskPipelineCatch (analyzeRiskIndicatorsTry o recipientAddress tokenAddress valueInEth
    transactionData)

/-! ## Risk-level derivations at decision-logging time -/

/-- `determineRiskLevel` (useTransactionInterceptor.ts): the count of
warning-severity indicators decides the level, for both user
choices. -/
def determineRiskLevel (riskIndicators : List RiskIndicator) : String :=
  if riskIndicators = [] then "low"
  else
    let hasWarning := riskIndicators.any (fun i => i.severity = .warning)
    let warningCount := (riskIndicators.filter (fun i => i.severity = .warning)).length
    if warningCount ≥ 2 then "high"
    else if hasWarning then "medium"
    else "low"

/-- The `riskLevel` expression of `App.handleMockApprove`. -/
def mockApproveRiskLevel (riskIndicators : List RiskIndicator) : String :=
  if riskIndicators.any (fun r => r.severity = .warning) then "medium" else "low"

/-- The `riskLevel` expression of `App.handleMockReject`. -/
def mockRejectRiskLevel (riskIndicators : List RiskIndicator) : String :=
  if riskIndicators.any (fun r => r.severity = .warning) then "high" else "medium"

/-! ## Helper lemmas about strings -/

/-- Appending to the right keeps the character list non-empty. -/
theorem append_data_ne (s t : String) (h : s.data ≠ []) : (s ++ t).data ≠ [] := by
  rw [String.data_append]
  intro he
  exact h (List.append_eq_nil.mp he).1

/-- A string with a non-empty character list is not the empty string. -/
theorem ne_empty_of_data (s : String) (h : s.data ≠ []) : s ≠ "" := by
  intro he
  exact h (by simp [he])

/-- A list is a prefix of itself extended on the right. -/
theorem leadsWith_append (n b : List Char) : leadsWith n (n ++ b) = true := by
  induction n with
  | nil => rfl
  | cons a as ih => simpa [leadsWith] using ih

/-- A contiguous occurrence in the middle is found by `listContains`. -/
theorem listContains_middle (pre n post : List Char) :
    listContains (pre ++ (n ++ post)) n = true := by
  induction pre with
  | nil =>
      rw [listContains.eq_def]
      simp [leadsWith_append]
  | cons a as ih =>
      rw [listContains.eq_def]
      split
      · rfl
      · simpa using ih

/-- `jsIncludes` finds a middle occurrence of an appended string. -/
theorem jsIncludes_middle (pre n post : String) :
    jsIncludes (pre ++ n ++ post) n = true := by
  unfold jsIncludes
  rw [String.data_append, String.data_append, List.append_assoc]
  exact listContains_middle pre.data n.data post.data

/-! ## Helper lemmas about the explainer -/

/-- `analyzeUnknown` always reports low confidence. -/
theorem analyzeUnknown_confidence (p : ParsedTransaction) :
    (analyzeUnknown p).confidence = .low := rfl

/-- `analyzeUnknown` never produces an empty intent. -/
theorem analyzeUnknown_intent_ne (p : ParsedTransaction) : (analyzeUnknown p).intent ≠ "" := by
  unfold analyzeUnknown
  dsimp only
  split
  · exact ne_empty_of_data _ (append_data_ne _ _ (append_data_ne _ _ (append_data_ne _ _
      (by decide))))
  split
  · exact ne_empty_of_data _ (append_data_ne _ _ (append_data_ne _ _ (append_data_ne _ _
      (by decide))))
  · decide

/-- In a branch whose confidence is not low, the confidence-low/
unknown-result equivalence holds vacuously on both sides. -/
theorem branch_iff_of_conf {p : ParsedTransaction} {a : IntentAnalysis}
    (h : a.confidence ≠ .low) : (a.confidence = .low ↔ a = analyzeUnknown p) :=
  iff_of_false h (fun he => h (by rw [he, analyzeUnknown_confidence]))

/-- In a fallthrough branch the equivalence holds on both sides. -/
theorem unknown_branch_iff (p : ParsedTransaction) :
    ((analyzeUnknown p).confidence = .low ↔ analyzeUnknown p = analyzeUnknown p) :=
  iff_of_true (analyzeUnknown_confidence p) rfl

theorem analyzeTransfer_spec (p : ParsedTransaction) (a : IntentAnalysis)
    (h : analyzeTransfer? p = some a) :
    a.intent ≠ "" ∧ (a.confidence = .low ↔ a = analyzeUnknown p) := by
  unfold analyzeTransfer? at h
  dsimp only at h
  split at h
  · injection h with h; subst h
    exact ⟨ne_empty_of_data _ (append_data_ne _ _ (append_data_ne _ _ (append_data_ne _ _
      (by decide)))), branch_iff_of_conf (fun hh => nomatch hh)⟩
  · split at h
    · simp only [Option.pure_def, Option.bind_eq_bind, Option.bind_eq_some,
        Option.some.injEq] at h
      obtain ⟨p0, hp0, p1, hp1, rec, hrec, amt, hamt, ha⟩ := h
      subst ha
      exact ⟨ne_empty_of_data _ (append_data_ne _ _ (by decide)),
             branch_iff_of_conf (fun hh => nomatch hh)⟩
    · split at h
      · simp only [Option.pure_def, Option.bind_eq_bind, Option.bind_eq_some,
          Option.some.injEq] at h
        obtain ⟨p0, hp0, p1, hp1, p2, hp2, fa, hfa, rec, hrec, amt, hamt, ha⟩ := h
        subst ha
        exact ⟨ne_empty_of_data _ (append_data_ne _ _ (append_data_ne _ _ (append_data_ne _ _
          (by decide)))), branch_iff_of_conf (fun hh => nomatch hh)⟩
      · injection h with h; subst h
        exact ⟨analyzeUnknown_intent_ne p, unknown_branch_iff p⟩

theorem analyzeSwap_spec (p : ParsedTransaction) :
    (analyzeSwap p).intent ≠ "" ∧
    ((analyzeSwap p).confidence = .low ↔ analyzeSwap p = analyzeUnknown p) := by
  unfold analyzeSwap
  dsimp only
  split
  · exact ⟨analyzeUnknown_intent_ne p, unknown_branch_iff p⟩
  · split
    · exact ⟨ne_empty_of_data _ (append_data_ne _ _ (append_data_ne _ _ (append_data_ne _ _
        (by decide)))), branch_iff_of_conf (fun hh => nomatch hh)⟩
    · split
      · exact ⟨ne_empty_of_data _ (append_data_ne _ _ (append_data_ne _ _ (append_data_ne _ _
          (by decide)))), branch_iff_of_conf (fun hh => nomatch hh)⟩
      · split
        · exact ⟨ne_empty_of_data _ (append_data_ne _ _ (append_data_ne _ _ (append_data_ne _ _
            (by decide)))), branch_iff_of_conf (fun hh => nomatch hh)⟩
        · exact ⟨ne_empty_of_data _ (append_data_ne _ _ (by decide)),
            branch_iff_of_conf (fun hh => nomatch hh)⟩

theorem analyzeApproval_spec (p : ParsedTransaction) (a : IntentAnalysis)
    (h : analyzeApproval? p = some a) :
    a.intent ≠ "" ∧ (a.confidence = .low ↔ a = analyzeUnknown p) := by
  unfold analyzeApproval? at h
  dsimp only at h
  split at h
  · injection h with h; subst h
    exact ⟨analyzeUnknown_intent_ne p, unknown_branch_iff p⟩
  · simp only [Option.pure_def, Option.bind_eq_bind, Option.bind_eq_some,
      Option.some.injEq] at h
    obtain ⟨p0, hp0, p1, hp1, amt, hamt, sp, hsp, ha⟩ := h
    subst ha
    exact ⟨ne_empty_of_data _ (append_data_ne _ _ (append_data_ne _ _ (append_data_ne _ _
      (append_data_ne _ _ (by decide))))), branch_iff_of_conf (fun hh => nomatch hh)⟩

theorem analyzeLiquidity_spec (p : ParsedTransaction) :
    (analyzeLiquidity p).intent ≠ "" ∧
    ((analyzeLiquidity p).confidence = .low ↔ analyzeLiquidity p = analyzeUnknown p) := by
  unfold analyzeLiquidity
  dsimp only
  split
  · exact ⟨analyzeUnknown_intent_ne p, unknown_branch_iff p⟩
  · split
    · split
      · exact ⟨ne_empty_of_data _ (append_data_ne _ _ (by decide)),
          branch_iff_of_conf (fun hh => nomatch hh)⟩
      · exact ⟨ne_empty_of_data _ (append_data_ne _ _ (by decide)),
          branch_iff_of_conf (fun hh => nomatch hh)⟩
    · split
      · exact ⟨ne_empty_of_data _ (append_data_ne _ _ (append_data_ne _ _ (by decide))),
          branch_iff_of_conf (fun hh => nomatch hh)⟩
      · exact ⟨analyzeUnknown_intent_ne p, unknown_branch_iff p⟩

theorem analyzeIntent_spec (p : ParsedTransaction) (a : IntentAnalysis)
    (h : analyzeIntent? p = some a) :
    a.intent ≠ "" ∧ (a.confidence = .low ↔ a = analyzeUnknown p) := by
  unfold analyzeIntent? at h
  cases htype : p.type <;> rw [htype] at h
  case transfer => exact analyzeTransfer_spec p a h
  case swap =>
    injection h with h; subst h
    exact analyzeSwap_spec p
  case approval => exact analyzeApproval_spec p a h
  case liquidity =>
    injection h with h; subst h
    exact analyzeLiquidity_spec p
  case unknown =>
    injection h with h; subst h
    exact ⟨analyzeUnknown_intent_ne p, unknown_branch_iff p⟩

/-- Does a decoded parameter have the constructor its ABI type dictates? -/
def paramMatches : AbiType → Param → Bool
  | .address, .addr _ => true
  | .uint256, .uint _ => true
  | .addressArray, .addrList _ => true
  | _, _ => false

/-- Pointwise `paramMatches` with equal lengths. -/
def paramsMatch : List AbiType → List Param → Bool
  | [], [] => true
  | t :: ts, q :: qs => paramMatches t q && paramsMatch ts qs
  | _, _ => false

theorem decodeAddressWord_shape (w : List Char) (q : Param)
    (h : decodeAddressWord? w = some q) : paramMatches .address q = true := by
  unfold decodeAddressWord? at h
  split at h
  · injection h with h; subst h; rfl
  · cases h

theorem decodeAddressArray_shape (payload : List Char) (off : Nat) (q : Param)
    (h : decodeAddressArray? payload off = some q) : paramMatches .addressArray q = true := by
  unfold decodeAddressArray? at h
  simp only [Option.pure_def, Option.bind_eq_bind, Option.bind_eq_some, Option.some.injEq] at h
  obtain ⟨len, hlen, h⟩ := h
  split at h
  · simp only [Option.bind_eq_bind, Option.bind_eq_some, Option.some.injEq] at h
    obtain ⟨elems, helems, hq⟩ := h
    subst hq; rfl
  · cases h

theorem decodeHead_matches (tys : List AbiType) :
    ∀ (payload : List Char) (i : Nat) (ps : List Param),
      decodeHead? payload i tys = some ps → paramsMatch tys ps = true := by
  induction tys with
  | nil =>
      intro payload i ps h
      unfold decodeHead? at h
      injection h with h; subst h; rfl
  | cons t ts ih =>
      intro payload i ps h
      unfold decodeHead? at h
      cases t with
      | address =>
          simp only [Option.pure_def, Option.bind_eq_bind, Option.some_bind,
            Option.bind_eq_some, Option.some.injEq] at h
          obtain ⟨w, hw, q, hq, ps2, hps2, hps⟩ := h
          subst hps
          simp [paramsMatch, decodeAddressWord_shape w q hq, ih payload (i + 1) ps2 hps2]
      | uint256 =>
          simp only [Option.pure_def, Option.bind_eq_bind, Option.some_bind,
            Option.bind_eq_some, Option.some.injEq] at h
          obtain ⟨w, hw, ps2, hps2, hps⟩ := h
          subst hps
          simp [paramsMatch, paramMatches, ih payload (i + 1) ps2 hps2]
      | addressArray =>
          simp only [Option.pure_def, Option.bind_eq_bind, Option.some_bind,
            Option.bind_eq_some, Option.some.injEq] at h
          obtain ⟨off, hoff, q, hq, ps2, hps2, hps⟩ := h
          subst hps
          simp [paramsMatch, decodeAddressArray_shape payload off q hq,
            ih payload (i + 1) ps2 hps2]

theorem decodeParametersCore_matches (fn data : String) (ps : List Param)
    (h : decodeParametersCore? fn data = some ps) :
    ∃ tys, sigTypes? fn = some tys ∧ paramsMatch tys ps = true := by
  unfold decodeParametersCore? at h
  simp only [Option.pure_def, Option.bind_eq_bind, Option.bind_eq_some] at h
  obtain ⟨tys, htys, body, hbody, sel, hsel, h⟩ := h
  split at h
  · exact ⟨tys, htys, decodeHead_matches tys (body.drop 8) 0 ps h⟩
  · cases h

theorem lookup_mem_snd {l : List (String × String)} {k v : String}
    (h : l.lookup k = some v) : v ∈ l.map Prod.snd := by
  induction l with
  | nil => cases h
  | cons hd tl ih =>
      obtain ⟨a, b⟩ := hd
      simp only [List.lookup] at h
      split at h
      · injection h with h; subst h
        simp
      · simp only [List.map_cons, List.mem_cons]
        exact Or.inr (ih h)

/-- The decoder output invariant: parameters are absent, empty, or
typed according to the registered signature that produced them. -/
def ParsedOk (p : ParsedTransaction) : Prop :=
  p.parameters = none ∨ p.parameters = some [] ∨
  ∃ fn tys ps, p.functionName = some fn ∧ p.parameters = some ps ∧
    p.type = determineTransactionType fn ∧ sigTypes? fn = some tys ∧
    paramsMatch tys ps = true ∧ fn ∈ SIGNATURE_TO_FUNCTION.map Prod.snd

theorem parseTransactionRest_ok (tx : TransactionRequest) (vw : String) :
    ParsedOk (parseTransactionRest tx vw) := by
  unfold parseTransactionRest
  dsimp only
  split
  · exact Or.inl rfl
  · split
    · split
      · rename_i fn hsel
        cases hcore : decodeParametersCore? fn (jsOr tx.data "0x") with
        | none =>
            refine Or.inr (Or.inl ?_)
            simp [decodeParameters, hcore]
        | some ps =>
            refine Or.inr (Or.inr ?_)
            obtain ⟨tys, htys, hmatch⟩ := decodeParametersCore_matches _ _ _ hcore
            exact ⟨fn, tys, ps, rfl, by simp [decodeParameters, hcore], rfl, htys, hmatch,
              lookup_mem_snd hsel⟩
      · exact Or.inl rfl
    · exact Or.inl rfl

theorem parseTransaction_ok (tx : TransactionRequest) (p : ParsedTransaction)
    (h : parseTransaction? tx = some p) : ParsedOk p := by
  unfold parseTransaction? at h
  simp only [Option.map_eq_some'] at h
  obtain ⟨vw, hvw, hp⟩ := h
  subst hp
  exact parseTransactionRest_ok tx vw

theorem paramsMatch_addr_uint (ps : List Param)
    (h : paramsMatch [.address, .uint256] ps = true) : ∃ s n, ps = [.addr s, .uint n] := by
  match ps, h with
  | [.addr s, .uint n], _ => exact ⟨s, n, rfl⟩
  | [], h | [_], h | (_ :: _ :: _ :: _), h => simp [paramsMatch, paramMatches] at h
  | [.uint _, _], h | [.addrList _, _], h => simp [paramsMatch, paramMatches] at h
  | [.addr _, .addr _], h | [.addr _, .addrList _], h =>
      simp [paramsMatch, paramMatches] at h

theorem paramsMatch_addr_addr_uint (ps : List Param)
    (h : paramsMatch [.address, .address, .uint256] ps = true) :
    ∃ s1 s2 n, ps = [.addr s1, .addr s2, .uint n] := by
  match ps, h with
  | [.addr s1, .addr s2, .uint n], _ => exact ⟨s1, s2, n, rfl⟩
  | [], h | [_], h | [_, _], h | (_ :: _ :: _ :: _ :: _), h =>
      simp [paramsMatch, paramMatches] at h
  | [.uint _, _, _], h | [.addrList _, _, _], h => simp [paramsMatch, paramMatches] at h
  | [.addr _, .uint _, _], h | [.addr _, .addrList _, _], h =>
      simp [paramsMatch, paramMatches] at h
  | [.addr _, .addr _, .addr _], h | [.addr _, .addr _, .addrList _], h =>
      simp [paramsMatch, paramMatches] at h

theorem registry_approval_name (fn : String)
    (hmem : fn ∈ SIGNATURE_TO_FUNCTION.map Prod.snd)
    (hty : determineTransactionType fn = .approval) : fn = "approve(address,uint256)" := by
  simp only [SIGNATURE_TO_FUNCTION, FUNCTION_SIGNATURES, List.map_cons, List.map_nil,
    List.mem_cons, List.not_mem_nil, or_false] at hmem
  rcases hmem with rfl | rfl | rfl | rfl | rfl | rfl | rfl | rfl | rfl | rfl | rfl | rfl | rfl <;>
    first | rfl | (exfalso; revert hty; decide)

theorem analyzeIntent_total (p : ParsedTransaction) (hok : ParsedOk p) :
    (analyzeIntent? p).isSome := by
  unfold analyzeIntent?
  cases htype : p.type
  case swap => simp
  case liquidity => simp
  case unknown => simp
  case transfer =>
    show (analyzeTransfer? p).isSome
    unfold analyzeTransfer?
    dsimp only
    split
    · simp
    · split
      · rename_i hguard
        simp only [Bool.and_eq_true, decide_eq_true_eq] at hguard
        obtain ⟨⟨hfn, hsome⟩, hlen⟩ := hguard
        rcases hok with hnone | hempty | ⟨fn, tys, ps, hfn2, hps, -, htys, hmatch, -⟩
        · rw [hnone] at hsome; cases hsome
        · rw [hempty] at hlen; simp at hlen
        · rw [hfn2] at hfn
          simp only [Option.getD_some] at hfn
          subst hfn
          have htys2 : sigTypes? "transfer(address,uint256)" = some [.address, .uint256] := by decide
          rw [htys2] at htys
          injection htys with htys
          subst htys
          obtain ⟨s, n, rfl⟩ := paramsMatch_addr_uint ps hmatch
          rw [hps]
          simp [formatAddressParam?, paramBigInt?]
      · split
        · rename_i hguard
          simp only [Bool.and_eq_true, decide_eq_true_eq] at hguard
          obtain ⟨⟨hfn, hsome⟩, hlen⟩ := hguard
          rcases hok with hnone | hempty | ⟨fn, tys, ps, hfn2, hps, -, htys, hmatch, -⟩
          · rw [hnone] at hsome; cases hsome
          · rw [hempty] at hlen; simp at hlen
          · rw [hfn2] at hfn
            simp only [Option.getD_some] at hfn
            subst hfn
            have htys2 : sigTypes? "transferFrom(address,address,uint256)" =
                some [.address, .address, .uint256] := by decide
            rw [htys2] at htys
            injection htys with htys
            subst htys
            obtain ⟨s1, s2, n, rfl⟩ := paramsMatch_addr_addr_uint ps hmatch
            rw [hps]
            simp [formatAddressParam?, paramBigInt?]
        · simp
  case approval =>
    show (analyzeApproval? p).isSome
    unfold analyzeApproval?
    dsimp only
    split
    · simp
    · rename_i hguard
      simp only [Bool.or_eq_true, decide_eq_true_eq, Option.isNone_iff_eq_none, not_or,
        Nat.not_lt] at hguard
      obtain ⟨hsome, hlen⟩ := hguard
      rcases hok with hnone | hempty | ⟨fn, tys, ps, hfn2, hps, htype2, htys, hmatch, hmem⟩
      · exact absurd hnone hsome
      · rw [hempty] at hlen; simp at hlen
      · rw [htype] at htype2
        have hfn3 := registry_approval_name fn hmem htype2.symm
        subst hfn3
        have htys2 : sigTypes? "approve(address,uint256)" = some [.address, .uint256] := by
          decide
        rw [htys2] at htys
        injection htys with htys
        subst htys
        obtain ⟨s, n, rfl⟩ := paramsMatch_addr_uint ps hmatch
        rw [hps]
        simp [paramBigInt?, identifyContractParam?]


/-- A well-formed `0x` hexadecimal quantity: the prefix plus at least
one hexadecimal digit. -/
def wellFormedHexNum (s : String) : Bool :=
  leadsWith ['0', 'x'] s.data && s.data.drop 2 ≠ [] && (s.data.drop 2).all isHexDig

/-- A well-formed `0x` hexadecimal string (the bare prefix allowed). -/
def wellFormedHexData (s : String) : Bool :=
  leadsWith ['0', 'x'] s.data && (s.data.drop 2).all isHexDig

theorem leadsWith_0x {cs : List Char} (h : leadsWith ['0', 'x'] cs = true) :
    ∃ rest, cs = '0' :: 'x' :: rest := by
  cases cs with
  | nil => cases h
  | cons a t =>
      cases t with
      | nil => simp [leadsWith] at h
      | cons b u =>
          simp only [leadsWith, Bool.and_eq_true, decide_eq_true_eq] at h
          obtain ⟨ha, hb, -⟩ := h
          subst ha; subst hb
          exact ⟨u, rfl⟩

theorem wf_shape {v : String} (h : wellFormedHexNum v = true) :
    ∃ rest, v.data = '0' :: 'x' :: rest ∧ rest ≠ [] ∧ rest.all isHexDig = true := by
  unfold wellFormedHexNum at h
  simp only [Bool.and_eq_true, decide_eq_true_eq] at h
  obtain ⟨⟨hlead, hne⟩, hall⟩ := h
  obtain ⟨rest, hcs⟩ := leadsWith_0x hlead
  rw [hcs] at hne hall
  exact ⟨rest, hcs, by simpa using hne, by simpa using hall⟩

theorem wf_ne_empty {v : String} (h : wellFormedHexNum v = true) : v ≠ "" := by
  obtain ⟨rest, hcs, -, -⟩ := wf_shape h
  exact ne_empty_of_data v (by rw [hcs]; simp)

theorem getBigInt_isSome_of_wf (v : String) (h : wellFormedHexNum v = true) :
    (getBigInt? v).isSome := by
  obtain ⟨rest, hcs, hne, hall⟩ := wf_shape h
  unfold getBigInt?
  rw [hcs]
  simp [hne, hall]

/-- The value-normalisation step succeeds when the supplied `value`
field is absent, empty, `"0x0"`, or a well-formed hexadecimal
quantity. -/
theorem parseValue_isSome (tx : TransactionRequest)
    (hval : ∀ v, tx.value = some v → v = "" ∨ v = "0x0" ∨ wellFormedHexNum v = true) :
    (if jsOr tx.value "0x0" = "0x0" then some "0"
     else (getBigInt? (jsOr tx.value "0x0")).map Nat.repr).isSome := by
  by_cases h0 : jsOr tx.value "0x0" = "0x0"
  · simp [h0]
  · rw [if_neg h0]
    cases hv : tx.value with
    | none => exact absurd (by simp [jsOr, hv]) h0
    | some v =>
        rcases hval v hv with rfl | rfl | hwf
        · exact absurd (by simp [jsOr, hv]) h0
        · exact absurd (by simp [jsOr, hv]) h0
        · have hjs : jsOr (some v) "0x0" = v := by simp [jsOr, wf_ne_empty hwf]
          rw [hjs]
          simpa using getBigInt_isSome_of_wf v hwf

theorem parseTransaction_eq_some (tx : TransactionRequest)
    (hval : ∀ v, tx.value = some v → v = "" ∨ v = "0x0" ∨ wellFormedHexNum v = true) :
    ∃ vw, parseTransaction? tx = some (parseTransactionRest tx vw) := by
  obtain ⟨vw, hvw⟩ := Option.isSome_iff_exists.mp (parseValue_isSome tx hval)
  refine ⟨vw, ?_⟩
  unfold parseTransaction?
  dsimp only
  rw [hvw]
  rfl


/-- C10: a `data` field longer than the bare `0x` prefix but shorter
than a full 4-byte selector (between 3 and 9 characters) decodes
without throwing to kind Unknown with `functionSignature`,
`functionName` and `parameters` all absent. -/
theorem short_data_unknown (tx : TransactionRequest) (d : String)
    (hd : tx.data = some d) (hlen1 : 2 < jsLength d) (hlen2 : jsLength d < 10)
    (hval : ∀ v, tx.value = some v → v = "" ∨ v = "0x0" ∨ wellFormedHexNum v = true) :
    ∃ p, parseTransaction? tx = some p ∧ p.type = .unknown ∧ p.functionSignature = none ∧
      p.functionName = none ∧ p.parameters = none := by
  obtain ⟨vw, hvw⟩ := parseTransaction_eq_some tx hval
  refine ⟨parseTransactionRest tx vw, hvw, ?_⟩
  have hjs : jsOr tx.data "0x" = d := by
    have : d ≠ "" := by
      intro he; rw [he] at hlen1; simp [jsLength] at hlen1
    simp [jsOr, hd, this]
  have h1 : (decide (jsOr tx.data "0x" = "0x") ||
      decide (jsLength (jsOr tx.data "0x") ≤ 2)) = false := by
    rw [hjs]
    simp only [Bool.or_eq_false_iff, decide_eq_false_iff_not]
    constructor
    · intro he; rw [he] at hlen1; simp [jsLength] at hlen1
    · omega
  unfold parseTransactionRest
  dsimp only
  rw [h1]
  rw [if_neg (show ¬jsLength (jsOr tx.data "0x") ≥ 10 by rw [hjs]; omega)]
  simp

/-- C3 (amended): whenever the effective call data is longer than two
characters (so the plain-transfer shortcut does not apply), a decoded
transaction whose selector is absent or not found in the registry has
kind Unknown. -/
theorem unknown_kind_of_unregistered_selector (tx : TransactionRequest) (p : ParsedTransaction)
    (hp : parseTransaction? tx = some p)
    (hlen : 2 < jsLength (jsOr tx.data "0x"))
    (hsel : ∀ sel, p.functionSignature = some sel →
      SIGNATURE_TO_FUNCTION.lookup sel = none) :
    p.type = .unknown := by
  unfold parseTransaction? at hp
  simp only [Option.map_eq_some'] at hp
  obtain ⟨vw, -, hp⟩ := hp
  subst hp
  have h1 : (decide (jsOr tx.data "0x" = "0x") ||
      decide (jsLength (jsOr tx.data "0x") ≤ 2)) = false := by
    simp only [Bool.or_eq_false_iff, decide_eq_false_iff_not]
    constructor
    · intro he; rw [he] at hlen; simp [jsLength] at hlen
    · omega
  by_cases h2 : 10 ≤ jsLength (jsOr tx.data "0x")
  · cases hfn : SIGNATURE_TO_FUNCTION.lookup (jsSlice (jsOr tx.data "0x") 2 10) with
    | some fn =>
        exfalso
        have hfs : (parseTransactionRest tx vw).functionSignature =
            some (jsSlice (jsOr tx.data "0x") 2 10) := by
          unfold parseTransactionRest
          dsimp only
          rw [h1]
          simp [h2, hfn]
        rw [hsel _ hfs] at hfn
        cases hfn
    | none =>
        unfold parseTransactionRest
        dsimp only
        rw [h1]
        simp [h2, hfn]
  · unfold parseTransactionRest
    dsimp only
    rw [h1]
    simp [h2]

/-- C3 counterexample: a plain native transfer (`data = "0x"`) has no
selector yet decodes to kind Transfer, not Unknown. -/
theorem unknown_invariant_cex :
    (parseTransaction? { data := some "0x" }).map
        (fun p => (p.functionSignature, p.type)) = some (none, .transfer) ∧
    TransactionType.transfer ≠ .unknown := ⟨rfl, by decide⟩

/-- C10 witness at `data = "0x1234"`. -/
theorem short_data_unknown_witness :
    ∃ p, parseTransaction? { data := some "0x1234" } = some p ∧ p.type = .unknown ∧
      p.functionSignature = none ∧ p.functionName = none ∧ p.parameters = none :=
  short_data_unknown { data := some "0x1234" } "0x1234" rfl (by decide) (by decide)
    (fun v hv => by cases hv)

/-- C3 witness at `data = "0x12345678"` (unregistered selector). -/
theorem unknown_kind_witness :
    ∃ p, parseTransaction? { data := some "0x12345678" } = some p ∧ p.type = .unknown := by
  refine ⟨parseTransactionRest { data := some "0x12345678" } "0", rfl, ?_⟩
  refine unknown_kind_of_unregistered_selector { data := some "0x12345678" } _ rfl (by decide) ?_
  intro sel hs
  have he : (parseTransactionRest { data := some "0x12345678" } "0").functionSignature =
      some "12345678" := rfl
  rw [he] at hs
  injection hs with hs
  subst hs
  rfl


theorem registry_name_ne_empty (fn : String)
    (hmem : fn ∈ SIGNATURE_TO_FUNCTION.map Prod.snd) : fn ≠ "" := by
  simp only [SIGNATURE_TO_FUNCTION, FUNCTION_SIGNATURES, List.map_cons, List.map_nil,
    List.mem_cons, List.not_mem_nil, or_false] at hmem
  rcases hmem with rfl | rfl | rfl | rfl | rfl | rfl | rfl | rfl | rfl | rfl | rfl | rfl | rfl <;>
    decide

theorem analyzeTransfer_fallthrough (p : ParsedTransaction) (fn : String)
    (hfn : p.functionName = some fn) (hne : fn ≠ "") (hps : p.parameters = some [])
    (ht : p.type = .transfer) : analyzeIntent? p = some (analyzeUnknown p) := by
  unfold analyzeIntent?
  rw [ht]
  unfold analyzeTransfer?
  dsimp only
  rw [hfn, hps]
  simp [optTruthy, hne]

theorem analyzeApproval_fallthrough (p : ParsedTransaction)
    (hps : p.parameters = some []) (ht : p.type = .approval) :
    analyzeIntent? p = some (analyzeUnknown p) := by
  unfold analyzeIntent?
  rw [ht]
  unfold analyzeApproval?
  dsimp only
  rw [hps]
  simp

/-- C4 (amended): when the call data carries a registered selector but
the parameter payload cannot be decoded, decode does not raise and the
resulting transaction has `parameters` present but empty (`some []`);
Transfer- and Approval-kind transactions then fall through to the
Unknown-handling explanation path (Swap and Liquidity do not). -/
theorem decode_failure_empty_parameters (tx : TransactionRequest) (p : ParsedTransaction)
    (fn : String)
    (hp : parseTransaction? tx = some p)
    (hlen : 10 ≤ jsLength (jsOr tx.data "0x"))
    (hsel : SIGNATURE_TO_FUNCTION.lookup (jsSlice (jsOr tx.data "0x") 2 10) = some fn)
    (hfail : decodeParametersCore? fn (jsOr tx.data "0x") = none) :
    p.parameters = some [] ∧
    ((p.type = .transfer ∨ p.type = .approval) →
      analyzeIntent? p = some (analyzeUnknown p)) := by
  unfold parseTransaction? at hp
  simp only [Option.map_eq_some'] at hp
  obtain ⟨vw, -, hp⟩ := hp
  subst hp
  have hne : fn ≠ "" := registry_name_ne_empty fn (lookup_mem_snd hsel)
  have h1 : (decide (jsOr tx.data "0x" = "0x") ||
      decide (jsLength (jsOr tx.data "0x") ≤ 2)) = false := by
    simp only [Bool.or_eq_false_iff, decide_eq_false_iff_not]
    constructor
    · intro he; rw [he] at hlen; simp [jsLength] at hlen
    · omega
  have hdec : decodeParameters fn (jsOr tx.data "0x") = [] := by
    simp [decodeParameters, hfail]
  have hP : parseTransactionRest tx vw =
      { «to» := jsOr tx.«to» "", value := vw, data := jsOr tx.data "0x",
        functionSignature := some (jsSlice (jsOr tx.data "0x") 2 10),
        functionName := some fn,
        parameters := some [],
        type := determineTransactionType fn } := by
    unfold parseTransactionRest
    dsimp only
    rw [h1]
    simp [hlen, hsel, hdec]
  rw [hP]
  refine ⟨rfl, ?_⟩
  intro htype
  rcases htype with ht | ht
  · exact analyzeTransfer_fallthrough _ fn rfl hne rfl ht
  · exact analyzeApproval_fallthrough _ rfl ht

/-- C4 counterexample: at `data = "0x095ea7b3"` (a registered selector
with an undecodable empty payload) `parameters` comes out present but
empty, not absent. -/
theorem decode_failure_parameters_cex :
    (parseTransaction?
        { «to» := some "0xA0b86a33E6441b8c18d904c4c0b5c0c8c7c5b0c8",
          data := some "0x095ea7b3" }).map (fun p => p.parameters) = some (some []) ∧
    (some ([] : List Param) ≠ (none : Option (List Param))) := ⟨rfl, by decide⟩

/-- C4 witness at `data = "0x095ea7b3"`. -/
theorem decode_failure_witness :
    ∃ p, parseTransaction? { data := some "0x095ea7b3" } = some p ∧
      p.parameters = some [] := by
  refine ⟨parseTransactionRest { data := some "0x095ea7b3" } "0", rfl, ?_⟩
  exact (decode_failure_empty_parameters { data := some "0x095ea7b3" } _
    "approve(address,uint256)" rfl (by decide) (by decide) (by decide)).1


/-- C7: when the source query succeeds and positively reports "not
verified" (non-empty result, empty trimmed source) for a whitelisted
address, the check still returns the info-severity known-protocol
indicator from "Fallback Verification", not the unverified warning. -/
theorem whitelist_overrides_unverified (o : EtherscanOracle) (addr name : String)
    (resp : ContractResponse) (entry : ContractSourceEntry) (rest : List ContractSourceEntry)
    (hfetch : o.getSourceCode addr = .ok resp)
    (hstatus : resp.status = "1")
    (hresult : resp.result = some (entry :: rest))
    (hsource : jsTrim entry.sourceCode = "")
    (hwl : getKnownProtocol addr = some name) :
    checkContractVerification o addr = some (knownProtocolIndicator name) ∧
    (knownProtocolIndicator name).severity = .info ∧
    (knownProtocolIndicator name).source = "Fallback Verification" := by
  refine ⟨?_, rfl, rfl⟩
  unfold checkContractVerification
  rw [hfetch]
  by_cases he : entry.sourceCode = ""
  · simp [hstatus, hresult, he, hwl]
  · simp [hstatus, hresult, he, hsource, hwl]

/-- An oracle whose source query positively reports an unverified
contract and whose other endpoints fail. -/
def unverifiedSourceOracle : EtherscanOracle :=
  { getSourceCode := fun _ => .ok ⟨"1", some [⟨""⟩]⟩,
    getBlockNumber := .error (),
    getTxListAsc := fun _ => .error (),
    getTxListDesc := fun _ => .error (),
    getCode := fun _ => .ok ⟨some "0x60806040"⟩ }

/-- C7 witness at the Uniswap V2 router address. -/
theorem whitelist_overrides_witness :
    checkContractVerification unverifiedSourceOracle
        "0x7a250d5630B4cF539739dF2C5dAcb4c659F2488D" =
      some (knownProtocolIndicator "Uniswap V2 Router") ∧
    (knownProtocolIndicator "Uniswap V2 Router").severity = .info ∧
    (knownProtocolIndicator "Uniswap V2 Router").source = "Fallback Verification" :=
  whitelist_overrides_unverified unverifiedSourceOracle
    "0x7a250d5630B4cF539739dF2C5dAcb4c659F2488D" "Uniswap V2 Router"
    ⟨"1", some [⟨""⟩]⟩ ⟨""⟩ [] rfl rfl rfl rfl (by decide)

/-- C8: an Approval-kind transaction with at least two decoded
parameters whose second is at or above the 256-bit maximum yields an
intent containing "unlimited" and the explicit warning detail line. -/
theorem unlimited_approval_warning (p : ParsedTransaction) (ps : List Param)
    (s : String) (n : Nat)
    (ht : p.type = .approval) (hps : p.parameters = some ps)
    (hlen : 2 ≤ ps.length) (h0 : ps.get? 0 = some (.addr s)) (h1 : ps.get? 1 = some (.uint n))
    (hn : MAX_UINT256 ≤ n) :
    ∃ a, analyzeIntent? p = some a ∧ jsIncludes a.intent "unlimited" = true ∧
      "WARNING: This grants unlimited spending permission" ∈ a.details := by
  have hres : analyzeIntent? p = some
      { intent := "Allow " ++ identifyContract s ++ " to spend " ++ "unlimited" ++
          " of your tokens",
        estimatedOutcome := identifyContract s ++
          " will be able to transfer your tokens on your behalf",
        confidence := .high,
        details := ["Token contract: " ++ formatAddress p.«to»,
                    "Spender: " ++ identifyContract s ++ " (" ++ paramDisplay (.addr s) ++ ")",
                    "Amount: " ++ "unlimited" ++ " tokens",
                    "WARNING: This grants unlimited spending permission",
                    "You can revoke this permission later by setting approval to 0"] } := by
    unfold analyzeIntent?
    rw [ht]
    unfold analyzeApproval?
    dsimp only
    rw [hps]
    rw [List.get?_eq_getElem?] at h0 h1
    simp [Nat.not_lt.mpr hlen, h0, h1, paramBigInt?, identifyContractParam?, hn]
  refine ⟨_, hres, ?_, ?_⟩
  · exact jsIncludes_middle ("Allow " ++ identifyContract s ++ " to spend ") "unlimited"
      " of your tokens"
  · simp

/-- A decoded unlimited USDC-style approval, as the decoder produces
it (second parameter at the 256-bit maximum). -/
def demoApprovalTx : ParsedTransaction :=
  { «to» := "0xa0b86a33e6441b8c18d904c4c0b5c0c8c7c5b0c8", value := "0",
    data := "0x095ea7b3", functionSignature := some "095ea7b3",
    functionName := some "approve(address,uint256)",
    parameters := some [.addr "0x742d35cc6634c0532925a3b8d4c9db96c4c4c4c4",
                        .uint (2 ^ 256 - 1)],
    type := .approval }

/-- C8 witness on the concrete unlimited approval. -/
theorem unlimited_approval_warning_witness :
    ∃ a, analyzeIntent? demoApprovalTx = some a ∧ jsIncludes a.intent "unlimited" = true ∧
      "WARNING: This grants unlimited spending permission" ∈ a.details :=
  unlimited_approval_warning demoApprovalTx
    [.addr "0x742d35cc6634c0532925a3b8d4c9db96c4c4c4c4", .uint (2 ^ 256 - 1)]
    "0x742d35cc6634c0532925a3b8d4c9db96c4c4c4c4" (2 ^ 256 - 1)
    rfl rfl (by decide) rfl rfl (by decide)

/-- C9 spec-side rule, from the claim text: "high" at two or more
warning indicators, "medium" at exactly one, "low" otherwise. -/
def specRiskLevel (riskIndicators : List RiskIndicator) : String :=
  if 2 ≤ (riskIndicators.filter (fun i => i.severity = .warning)).length then "high"
  else if 1 ≤ (riskIndicators.filter (fun i => i.severity = .warning)).length then "medium"
  else "low"

theorem any_iff_filter_pos (l : List RiskIndicator) (f : RiskIndicator → Bool) :
    l.any f = true ↔ 1 ≤ (l.filter f).length := by
  induction l with
  | nil => simp
  | cons a t ih =>
      by_cases hfa : f a = true <;> simp [hfa, ih, Nat.succ_le]

/-- C9 (amended): the interceptor hook derivation `determineRiskLevel`
follows the warning-count rule of the claim for both user choices, but
the mock-transaction handlers in `App` instead map any-warning to
"medium" (approve) or "high" (reject) and no-warning to "low"
(approve) or "medium" (reject). -/
theorem risk_level_derivations (l : List RiskIndicator) :
    determineRiskLevel l = specRiskLevel l ∧
    mockApproveRiskLevel l =
      (if 1 ≤ (l.filter (fun i => i.severity = .warning)).length then "medium" else "low") ∧
    mockRejectRiskLevel l =
      (if 1 ≤ (l.filter (fun i => i.severity = .warning)).length then "high" else "medium") := by
  refine ⟨?_, ?_, ?_⟩
  · unfold determineRiskLevel specRiskLevel
    by_cases hnil : l = []
    · subst hnil; simp
    · rw [if_neg hnil]
      by_cases h2 : 2 ≤ (l.filter (fun i => i.severity = .warning)).length
      · simp [h2]
      · rw [if_neg h2, if_neg h2]
        by_cases h1 : l.any (fun i => i.severity = .warning) = true
        · rw [if_pos h1, if_pos ((any_iff_filter_pos l _).mp h1)]
        · rw [if_neg h1, if_neg (fun hc => h1 ((any_iff_filter_pos l _).mpr hc))]
  · unfold mockApproveRiskLevel
    by_cases h1 : l.any (fun r => r.severity = .warning) = true
    · rw [if_pos h1, if_pos ((any_iff_filter_pos l _).mp h1)]
    · rw [if_neg h1, if_neg (fun hc => h1 ((any_iff_filter_pos l _).mpr hc))]
  · unfold mockRejectRiskLevel
    by_cases h1 : l.any (fun r => r.severity = .warning) = true
    · rw [if_pos h1, if_pos ((any_iff_filter_pos l _).mp h1)]
    · rw [if_neg h1, if_neg (fun hc => h1 ((any_iff_filter_pos l _).mpr hc))]

/-- C9 counterexample: with two warning indicators the mock-approve
logging call derives "medium" where the claim's count rule demands
"high"; with none, the mock-reject call derives "medium" where the
rule demands "low". -/
theorem risk_level_rule_cex :
    mockApproveRiskLevel [nonContractWarning, nonContractWarning] = "medium" ∧
    specRiskLevel [nonContractWarning, nonContractWarning] = "high" ∧
    ("medium" : String) ≠ "high" ∧
    mockRejectRiskLevel [] = "medium" ∧ specRiskLevel [] = "low" :=
  ⟨rfl, rfl, by decide, rfl, rfl⟩


/-- C5: the explainer reports low confidence exactly when its result
is the Unknown-handling fallback analysis (in particular whenever the
kind is Unknown); every specific branch reports high or medium. -/
theorem low_confidence_iff_unknown_path (p : ParsedTransaction) (a : IntentAnalysis)
    (h : analyzeIntent? p = some a) :
    (a.confidence = .low ↔ a = analyzeUnknown p) ∧
    (p.type = .unknown → a = analyzeUnknown p) :=
  ⟨(analyzeIntent_spec p a h).2, fun ht => by
    unfold analyzeIntent? at h
    rw [ht] at h
    injection h with h
    exact h.symm⟩

/-- An Unknown-kind transaction used to instantiate the explainer
statements. -/
def demoUnknownTx : ParsedTransaction :=
  { «to» := "0x1111111111111111111111111111111111111111", value := "0", data := "0x12345678",
    functionSignature := some "12345678", type := .unknown }

/-- C5 witness on an Unknown-kind transaction. -/
theorem low_confidence_witness :
    (((analyzeUnknown demoUnknownTx).confidence = .low ↔
      analyzeUnknown demoUnknownTx = analyzeUnknown demoUnknownTx) ∧
     (demoUnknownTx.type = .unknown →
      analyzeUnknown demoUnknownTx = analyzeUnknown demoUnknownTx)) :=
  low_confidence_iff_unknown_path demoUnknownTx (analyzeUnknown demoUnknownTx) rfl

/-- C1: for a request whose `to`, `value` and `data` fields are
well-formed hexadecimal strings, decode followed by explain terminates
without throwing, yields a non-empty intent, and a confidence among
high, medium, low. -/
theorem decode_explain_total (tx : TransactionRequest)
    (hto : ∀ v, tx.«to» = some v → wellFormedHexData v = true)
    (hval : ∀ v, tx.value = some v → v = "" ∨ v = "0x0" ∨ wellFormedHexNum v = true)
    (hdata : ∀ v, tx.data = some v → wellFormedHexData v = true) :
    ∃ p a, parseTransaction? tx = some p ∧ analyzeIntent? p = some a ∧
      a.intent ≠ "" ∧
      (a.confidence = .high ∨ a.confidence = .medium ∨ a.confidence = .low) := by
  obtain ⟨vw, hvw⟩ := parseTransaction_eq_some tx hval
  have hok := parseTransaction_ok tx _ hvw
  obtain ⟨a, ha⟩ := Option.isSome_iff_exists.mp (analyzeIntent_total _ hok)
  refine ⟨_, a, hvw, ha, (analyzeIntent_spec _ a ha).1, ?_⟩
  cases hconf : a.confidence
  · exact Or.inl rfl
  · exact Or.inr (Or.inl rfl)
  · exact Or.inr (Or.inr rfl)

/-- C1 witness on a plain 0.1-ETH transfer request. -/
theorem decode_explain_total_witness :
    ∃ p a, parseTransaction?
        { «to» := some "0x742d35cc6634c0532925a3b8d4c9db996c4b4d8b6",
          value := some "0x16345785d8a0000", data := some "0x" } = some p ∧
      analyzeIntent? p = some a ∧ a.intent ≠ "" ∧
      (a.confidence = .high ∨ a.confidence = .medium ∨ a.confidence = .low) :=
  decode_explain_total
    { «to» := some "0x742d35cc6634c0532925a3b8d4c9db996c4b4d8b6",
      value := some "0x16345785d8a0000", data := some "0x" }
    (fun v hv => by cases hv; decide)
    (fun v hv => by cases hv; exact Or.inr (Or.inr (by decide)))
    (fun v hv => by cases hv; decide)


/-- C6 (amended): when call data longer than two characters goes to a
recipient without code, the non-contract warning is the first
indicator; the token-age/DEX checks still run when a distinct token
address is supplied and the value check still runs, so the result is
exactly the single warning only when no distinct token address is
given and the value check yields nothing. -/
theorem non_contract_warning_path (o : EtherscanOracle) (recipient d : String)
    (tok val : Option String)
    (hlen : 2 < jsLength d)
    (hcode : isContract o recipient = false) :
    (analyzeRiskIndicators o recipient tok val (some d)).head? = some nonContractWarning ∧
    ((optTruthy tok = false ∨ tok.getD "" = recipient) →
      (optTruthy val = false ∨ checkTransactionValue (val.getD "") = none) →
      analyzeRiskIndicators o recipient tok val (some d) = [nonContractWarning]) := by
  have hne : d ≠ "" := by intro he; rw [he] at hlen; simp [jsLength] at hlen
  have hne2 : d ≠ "0x" := by intro he; rw [he] at hlen; simp [jsLength] at hlen
  have hdata : hasTxData (some d) = true := by simp [hasTxData, hne, hne2, hlen]
  unfold analyzeRiskIndicators riskPipelineCatch analyzeRiskIndicatorsTry
    analyzeRiskIndicatorsBody
  dsimp only
  rw [hdata, hcode]
  constructor
  · simp
  · intro h1 h2
    have htok : (if optTruthy tok && !decide (tok.getD "" = recipient) = true then
        (checkTokenAge o (tok.getD "")).toList ++ (checkDEXPoolPresence o (tok.getD "")).toList
        else []) = [] := by
      rcases h1 with h1 | h1 <;> simp [h1]
    have hval : (if optTruthy val = true then
        (checkTransactionValue (val.getD "")).toList else []) = [] := by
      rcases h2 with h2 | h2 <;> simp [h2]
    simp [htok, hval]
    rcases h1 with h1 | h1 <;> rcases h2 with h2 | h2 <;> simp [h1, h2]


/-- An oracle whose fetches all fail, except the code lookup, which
succeeds and reports no deployed code. -/
def failOracle : EtherscanOracle :=
  { getSourceCode := fun _ => .error (),
    getBlockNumber := .error (),
    getTxListAsc := fun _ => .error (),
    getTxListDesc := fun _ => .error (),
    getCode := fun _ => .ok ⟨some "0x"⟩ }

/-- C6 counterexample: with a distinct token address supplied, the
non-contract path yields three indicators, not exactly one, because
the token-age and DEX checks still run. -/
theorem non_contract_exactly_one_cex :
    (analyzeRiskIndicators failOracle "0x1111111111111111111111111111111111111111"
        (some "0x2222222222222222222222222222222222222222") none (some "0xa9059cbb")).length =
      3 ∧ (3 : Nat) ≠ 1 := ⟨rfl, by decide⟩

/-- C6 witness: with no token address and no value the result is
exactly the single non-contract warning. -/
theorem non_contract_warning_witness :
    (analyzeRiskIndicators failOracle "0x1111111111111111111111111111111111111111" none none
        (some "0xa9059cbb")).head? = some nonContractWarning ∧
    analyzeRiskIndicators failOracle "0x1111111111111111111111111111111111111111" none none
        (some "0xa9059cbb") = [nonContractWarning] := by
  have h := non_contract_warning_path failOracle "0x1111111111111111111111111111111111111111"
    "0xa9059cbb" none none (by decide) rfl
  exact ⟨h.1, h.2 (Or.inl rfl) (Or.inl rfl)⟩

/-- C2 (amended): every failure of an external fetch is caught inside
its own check and becomes the check's fixed "Unable ..." warning —
except contract verification on a whitelisted address, which degrades
to the info-severity known-protocol indicator; the try block of
`analyzeRiskIndicators` never propagates an exception, and the
defensive top-level catch maps any escaped exception to exactly the
single "Unable to analyze risk indicators" warning. -/
theorem risk_failure_degradation (o : EtherscanOracle) (addr tok : String) :
    (o.getBlockNumber = .error () →
      checkTokenAge o tok = some (unableTokenAge "Etherscan API (Error)")) ∧
    (o.getTxListDesc tok = .error () →
      checkDEXPoolPresence o tok =
        some ⟨.noDexPool, .warning, "Unable to verify DEX pool presence",
              "Etherscan API (Error)"⟩) ∧
    (o.getSourceCode addr = .error () → getKnownProtocol addr = none →
      checkContractVerification o addr =
        some ⟨.unverifiedContract, .warning, "Unable to verify contract status",
              "Etherscan API (Error)"⟩) ∧
    (∀ name, o.getSourceCode addr = .error () → getKnownProtocol addr = some name →
      checkContractVerification o addr = some (knownProtocolIndicator name)) ∧
    (∀ tokA valA dataA, ∃ l, analyzeRiskIndicatorsTry o addr tokA valA dataA = .ok l) ∧
    (∀ e : Unit, riskPipelineCatch (.error e) = [riskErrorIndicator]) := by
  refine ⟨?_, ?_, ?_, ?_, ?_, ?_⟩
  · intro hb
    unfold checkTokenAge
    rw [hb]
  · intro hb
    unfold checkDEXPoolPresence
    rw [hb]
  · intro hb hwl
    unfold checkContractVerification
    rw [hb]
    simp [hwl]
  · intro name hb hwl
    unfold checkContractVerification
    rw [hb]
    simp [hwl]
  · intro tokA valA dataA
    exact ⟨_, rfl⟩
  · intro e
    rfl

/-- C2 counterexample: a fetch failure in the contract-verification
check at a whitelisted address degrades to an info-severity indicator,
not a warning-severity "unable to verify" indicator. -/
theorem risk_check_failure_info_cex :
    (checkContractVerification failOracle
        "0x7a250d5630B4cF539739dF2C5dAcb4c659F2488D").map (fun i => i.severity) =
      some .info ∧ Severity.info ≠ .warning := ⟨rfl, by decide⟩

/-- C2 witness: concrete failing fetches produce the fixed warnings. -/
theorem risk_failure_degradation_witness :
    checkTokenAge failOracle "0x2222222222222222222222222222222222222222" =
      some (unableTokenAge "Etherscan API (Error)") ∧
    checkContractVerification failOracle "0x1111111111111111111111111111111111111111" =
      some ⟨.unverifiedContract, .warning, "Unable to verify contract status",
            "Etherscan API (Error)"⟩ ∧
    riskPipelineCatch (.error ()) = [riskErrorIndicator] :=
  ⟨(risk_failure_degradation failOracle "0x1111111111111111111111111111111111111111"
      "0x2222222222222222222222222222222222222222").1 rfl,
   (risk_failure_degradation failOracle "0x1111111111111111111111111111111111111111"
      "0x2222222222222222222222222222222222222222").2.2.1 rfl (by decide),
   (risk_failure_degradation failOracle "0x1111111111111111111111111111111111111111"
      "0x2222222222222222222222222222222222222222").2.2.2.2.2 ()⟩

end Aura
